import Mathlib

/-
  Verification development for the turingclaw repository.

  The repository has two units:
  - `remote_mgr.py`: `run_ssh_command` builds an ssh command line, runs it
    as a subprocess with a 30 second timeout, and maps the outcome to a
    result record; a `__main__` block wraps it as a CLI.
  - `mock_ssh.py`: a script that prints canned SSH-like output.

  The subprocess layer is shallowly embedded: the outside world is an
  environment function assigning to each command line a behavior (how long
  the process takes, its exit code and captured output, and whether
  spawning raised a non-timeout exception).  `subprocess.run` with its
  timeout is modelled as a function from that behavior to an `Except`
  value, and the `try`/`except` blocks of `run_ssh_command` become a match
  on that `Except`.
-/

namespace TuringClaw

/-- The result dictionary returned by `run_ssh_command`: keys
`success`, `stdout`, `stderr`, `returncode`. -/
structure ExecResult where
  success : Bool
  stdout : String
  stderr : String
  returncode : Int
deriving DecidableEq, Repr

/-- Exceptions that `subprocess.run` can raise in `run_ssh_command`:
`subprocess.TimeoutExpired`, or any other exception carrying a message
(its `str(e)` rendering). -/
inductive PyExc where
  | timeoutExpired : PyExc
  | other : String → PyExc
deriving DecidableEq, Repr

/-- Behavior of the external world for one spawned command: how many
seconds the process would take, its exit code, its captured stdout and
stderr, and—if spawning or running raised a non-timeout exception—the
stringified exception message. -/
structure SubprocessBehavior where
  duration : Nat
  returncode : Int
  stdout : String
  stderr : String
  raises : Option String
deriving Repr

/-- The fixed timeout passed to `subprocess.run` in `remote_mgr.py`. -/
def ssh_timeout_seconds : Nat := 30

/-- Model of `subprocess.run(cmd, capture_output=True, text=True, timeout=30)`:
a non-timeout exception propagates as `PyExc.other`; a process taking
longer than the timeout raises `PyExc.timeoutExpired`; otherwise the
call returns the exit code and the captured output streams. -/
def subprocess_run (env : List String → SubprocessBehavior) (c : List String) :
    Except PyExc (Int × String × String) :=
  let b := env c
  match b.raises with
  | some msg => Except.error (PyExc.other msg)
  | none =>
    if b.duration > ssh_timeout_seconds then
      Except.error PyExc.timeoutExpired
    else
      Except.ok (b.returncode, b.stdout, b.stderr)

/-- Model of Python's `str.strip()` with no argument: removes leading and
trailing whitespace characters. -/
def pyStrip (s : String) : String :=
  String.mk (((s.data.dropWhile Char.isWhitespace).reverse.dropWhile
    Char.isWhitespace).reverse)

/-- Python truthiness of an optional string (`if key_file:`):
`None` and the empty string are falsy. -/
def strOptTruthy : Option String → Bool
  | none => false
  | some s => !s.isEmpty

/-- The ssh command line built by `run_ssh_command`
(`remote_mgr.py` lines 11-17). -/
def build_ssh_cmd (host user command : String) (key_file : Option String) :
    List String :=
  let ssh_cmd : List String :=
    ["ssh", "-o", "StrictHostKeyChecking=no", "-o", "BatchMode=yes"]
  let ssh_cmd :=
    if strOptTruthy key_file then ssh_cmd ++ ["-i", key_file.getD ""] else ssh_cmd
  ssh_cmd ++ [user ++ "@" ++ host, command]

/-- `run_ssh_command(host, user, command, key_file)` from `remote_mgr.py`,
parameterised by the subprocess environment.  The three branches mirror
the `try` body and the two `except` handlers. -/
def run_ssh_command (env : List String → SubprocessBehavior)
    (host user command : String) (key_file : Option String) : ExecResult :=
  let ssh_cmd := build_ssh_cmd host user command key_file
  match subprocess_run env ssh_cmd with
  | Except.ok (rc, out, err) =>
      { success := rc == 0, stdout := pyStrip out, stderr := pyStrip err,
        returncode := rc }
  | Except.error PyExc.timeoutExpired =>
      { success := false, stdout := "", stderr := "Connection timed out.",
        returncode := -1 }
  | Except.error (PyExc.other e) =>
      { success := false, stdout := "", stderr := e, returncode := -1 }

/-- The `__main__` block of `remote_mgr.py` after argument parsing:
returns the arguments passed to `print` and the argument of the one
`sys.exit` call, or `none` when control falls off the end of the script. -/
def remote_mgr_main (env : List String → SubprocessBehavior)
    (host command user : String) (key : Option String) :
    List String × Option Int :=
  let banner := "[TuringClaw] Connecting to " ++ user ++ "@" ++ host ++ "..."
  let result := run_ssh_command env host user command key
  if result.success then
    ([banner,
      "[SUCCESS] Command executed on " ++ host ++ ":\n",
      result.stdout], none)
  else
    ([banner,
      "[ERROR] Failed to execute command on " ++ host ++ " (Code: "
        ++ toString result.returncode ++ "):\n"]
      ++ (if result.stdout ≠ "" then ["STDOUT: " ++ result.stdout] else [])
      ++ (if result.stderr ≠ "" then ["STDERR: " ++ result.stderr] else []),
     some result.returncode)

/-- Exit status of a Python process given the argument of its explicit
`sys.exit` call, or `none` when the script terminates by falling off the
end (status 0). -/
def processExitCode : Option Int → Int
  | none => 0
  | some c => c

/-- The usage line printed by `mock_ssh.py`. -/
def mock_ssh_usage : String := "Usage: python mock_ssh.py <host> <cmd>"

/-- The canned uptime report printed by `mock_ssh.py` for the
command `uptime`. -/
def mock_uptime_line : String :=
  " 10:00:00 up 10 days,  2:30,  1 user,  load average: 0.00, 0.01, 0.05"

/-- `main()` of `mock_ssh.py`: given `sys.argv` (element 0 is the script
name), returns the printed lines and the process exit status. -/
def mock_ssh_main (argv : List String) : List String × Int :=
  if argv.length < 3 then
    ([mock_ssh_usage], 1)
  else
    let host := argv.getD 1 ""
    let cmd := argv.getD 2 ""
    (["[SSH Connected to " ++ host ++ "]",
      "[Executing]: " ++ cmd,
      if cmd = "uptime" then mock_uptime_line
      else "Command executed successfully."], 0)

/-- C1: when the spawned subprocess completes within the timeout with exit
code N, the result has `returncode = N` and `success` is true exactly when
`N = 0`. -/
theorem run_ssh_completed_exit_code (env : List String → SubprocessBehavior)
    (host user command : String) (key : Option String)
    (hr : (env (build_ssh_cmd host user command key)).raises = none)
    (hd : (env (build_ssh_cmd host user command key)).duration ≤ ssh_timeout_seconds) :
    (run_ssh_command env host user command key).returncode
      = (env (build_ssh_cmd host user command key)).returncode
    ∧ ((run_ssh_command env host user command key).success = true
        ↔ (env (build_ssh_cmd host user command key)).returncode = 0) := by
  have hnd : ¬ (env (build_ssh_cmd host user command key)).duration > ssh_timeout_seconds :=
    Nat.not_lt.mpr hd
  simp only [run_ssh_command, subprocess_run, hr, if_neg hnd]
  simp [beq_iff_eq]

/-- Witness for C1 at a concrete environment: a 5-second run with exit
code 7 yields `returncode = 7` and `success = false`. -/
theorem run_ssh_completed_exit_code_witness :
    (run_ssh_command (fun _ => ⟨5, 7, " out ", "err", none⟩) "h" "u" "c" none).returncode
      = (7 : Int)
    ∧ ((run_ssh_command (fun _ => ⟨5, 7, " out ", "err", none⟩) "h" "u" "c" none).success
        = true ↔ (7 : Int) = 0) := by
  simpa using
    run_ssh_completed_exit_code (fun _ => ⟨5, 7, " out ", "err", none⟩)
      "h" "u" "c" none rfl (by decide)

/-- C2: when the subprocess exceeds the 30-second bound (and no other
exception is raised), the result is exactly
`{success := false, stdout := "", stderr := "Connection timed out.", returncode := -1}`. -/
theorem run_ssh_timeout_result (env : List String → SubprocessBehavior)
    (host user command : String) (key : Option String)
    (hr : (env (build_ssh_cmd host user command key)).raises = none)
    (hd : (env (build_ssh_cmd host user command key)).duration > ssh_timeout_seconds) :
    run_ssh_command env host user command key
      = { success := false, stdout := "", stderr := "Connection timed out.",
          returncode := -1 } := by
  simp only [run_ssh_command, subprocess_run, hr, if_pos hd]

/-- Witness for C2 at a concrete environment: a 31-second run yields the
timeout result. -/
theorem run_ssh_timeout_result_witness :
    run_ssh_command (fun _ => ⟨31, 0, "x", "y", none⟩) "h" "u" "c" none
      = { success := false, stdout := "", stderr := "Connection timed out.",
          returncode := -1 } :=
  run_ssh_timeout_result (fun _ => ⟨31, 0, "x", "y", none⟩) "h" "u" "c" none
    rfl (by decide)

/-- C3: when the subprocess raises any error other than a timeout, the
result has `success = false`, `returncode = -1`, empty stdout, and
`stderr` equal to the stringified exception. -/
theorem run_ssh_error_result (env : List String → SubprocessBehavior)
    (host user command : String) (key : Option String) (msg : String)
    (hr : (env (build_ssh_cmd host user command key)).raises = some msg) :
    run_ssh_command env host user command key
      = { success := false, stdout := "", stderr := msg, returncode := -1 } := by
  simp only [run_ssh_command, subprocess_run, hr]

/-- Witness for C3 at a concrete environment raising
"No such file or directory". -/
theorem run_ssh_error_result_witness :
    run_ssh_command (fun _ => ⟨0, 0, "", "", some "No such file or directory"⟩)
      "h" "u" "c" none
      = { success := false, stdout := "", stderr := "No such file or directory",
          returncode := -1 } :=
  run_ssh_error_result (fun _ => ⟨0, 0, "", "", some "No such file or directory"⟩)
    "h" "u" "c" none "No such file or directory" rfl

/-- C4: when the subprocess completes normally, the result's stdout and
stderr are the captured streams with leading and trailing whitespace
stripped. -/
theorem run_ssh_output_trimmed (env : List String → SubprocessBehavior)
    (host user command : String) (key : Option String)
    (hr : (env (build_ssh_cmd host user command key)).raises = none)
    (hd : (env (build_ssh_cmd host user command key)).duration ≤ ssh_timeout_seconds) :
    (run_ssh_command env host user command key).stdout
      = pyStrip (env (build_ssh_cmd host user command key)).stdout
    ∧ (run_ssh_command env host user command key).stderr
      = pyStrip (env (build_ssh_cmd host user command key)).stderr := by
  have hnd : ¬ (env (build_ssh_cmd host user command key)).duration > ssh_timeout_seconds :=
    Nat.not_lt.mpr hd
  simp only [run_ssh_command, subprocess_run, hr, if_neg hnd]
  simp

/-- Witness for C4: whitespace around the captured streams is stripped. -/
theorem run_ssh_output_trimmed_witness :
    (run_ssh_command (fun _ => ⟨1, 0, "  ok \n", "\twarn ", none⟩) "h" "u" "c" none).stdout
      = "ok"
    ∧ (run_ssh_command (fun _ => ⟨1, 0, "  ok \n", "\twarn ", none⟩) "h" "u" "c" none).stderr
      = "warn" := by
  have h := run_ssh_output_trimmed (fun _ => ⟨1, 0, "  ok \n", "\twarn ", none⟩)
    "h" "u" "c" none rfl (by decide)
  have h1 : pyStrip "  ok \n" = "ok" := by decide
  have h2 : pyStrip "\twarn " = "warn" := by decide
  exact ⟨h.1.trans h1, h.2.trans h2⟩

/-- C5 counterexample: with the key path `some ""` supplied, the
constructed ssh invocation contains no identity-file option, refuting
"the identity-file option appears exactly when a key path is supplied"
(Python's `if key_file:` treats the empty string as falsy). -/
theorem build_ssh_cmd_empty_key_counterexample :
    ¬ ("-i" ∈ build_ssh_cmd "h" "u" "c" (some "")) := by
  decide

/-- C5 (amended): the ssh invocation is the client with
`StrictHostKeyChecking=no` and `BatchMode=yes`, then `-i key` exactly when
a non-empty key path is supplied, then `user@host`, then the command. -/
theorem build_ssh_cmd_structure (host user command : String) (key : Option String) :
    (key = none ∨ key = some "" →
      build_ssh_cmd host user command key
        = ["ssh", "-o", "StrictHostKeyChecking=no", "-o", "BatchMode=yes",
           user ++ "@" ++ host, command])
    ∧ (∀ k, key = some k → k ≠ "" →
      build_ssh_cmd host user command key
        = ["ssh", "-o", "StrictHostKeyChecking=no", "-o", "BatchMode=yes",
           "-i", k, user ++ "@" ++ host, command]) := by
  constructor
  · rintro (rfl | rfl) <;> rfl
  · rintro k rfl hk
    have hke : k.isEmpty = false :=
      Bool.eq_false_iff.mpr (fun h => hk ((String.isEmpty_iff k).mp h))
    simp [build_ssh_cmd, strOptTruthy, hke]

/-- Witness for C5 (amended): with no key the invocation has no `-i`;
with key `/id_rsa` the `-i` option and path precede the target. -/
theorem build_ssh_cmd_structure_witness :
    build_ssh_cmd "server1" "root" "uptime" none
      = ["ssh", "-o", "StrictHostKeyChecking=no", "-o", "BatchMode=yes",
         "root@server1", "uptime"]
    ∧ build_ssh_cmd "server1" "root" "uptime" (some "/id_rsa")
      = ["ssh", "-o", "StrictHostKeyChecking=no", "-o", "BatchMode=yes",
         "-i", "/id_rsa", "root@server1", "uptime"] := by
  refine ⟨?_, ?_⟩
  · have h := (build_ssh_cmd_structure "server1" "root" "uptime" none).1 (Or.inl rfl)
    simpa using h
  · have h := (build_ssh_cmd_structure "server1" "root" "uptime" (some "/id_rsa")).2
      "/id_rsa" rfl (by decide)
    simpa using h

/-- C6: the Remote Executor CLI calls `sys.exit` with the captured
`returncode` exactly when the result has `success = false`; on success no
explicit exit call is made and the process terminates with status 0. -/
theorem remote_mgr_exit_behavior (env : List String → SubprocessBehavior)
    (host command user : String) (key : Option String) :
    (remote_mgr_main env host command user key).2
      = (if (run_ssh_command env host user command key).success then none
         else some (run_ssh_command env host user command key).returncode)
    ∧ processExitCode (remote_mgr_main env host command user key).2
      = (if (run_ssh_command env host user command key).success then 0
         else (run_ssh_command env host user command key).returncode) := by
  cases h : (run_ssh_command env host user command key).success <;>
    simp [remote_mgr_main, h, processExitCode]

/-- C7: with at least two arguments, the Mock Responder prints exactly
three lines: the connection banner, the execution banner, and either the
canned uptime report (which contains "load average") when the command is
`uptime`, or "Command executed successfully." otherwise. -/
theorem mock_ssh_three_lines (prog host cmd : String) (rest : List String) :
    (mock_ssh_main (prog :: host :: cmd :: rest)).1
      = ["[SSH Connected to " ++ host ++ "]",
         "[Executing]: " ++ cmd,
         if cmd = "uptime" then mock_uptime_line
         else "Command executed successfully."]
    ∧ (mock_ssh_main (prog :: host :: cmd :: rest)).1.length = 3
    ∧ (∃ a b, mock_uptime_line = a ++ "load average" ++ b) := by
  have hlen : ¬ (rest.length + 1 + 1 + 1 < 3) := by omega
  refine ⟨?_, ?_, ?_⟩
  · simp [mock_ssh_main, hlen]
  · simp [mock_ssh_main, hlen]
  · exact ⟨" 10:00:00 up 10 days,  2:30,  1 user,  ", ": 0.00, 0.01, 0.05", by decide⟩

/-- C8: the Mock Responder with fewer than two positional arguments (that
is, `len(sys.argv) < 3`) prints the usage line and exits with status 1;
with two or more arguments it exits with status 0. -/
theorem mock_ssh_arg_check (argv : List String) :
    (argv.length < 3 → mock_ssh_main argv = ([mock_ssh_usage], 1))
    ∧ (3 ≤ argv.length → (mock_ssh_main argv).2 = 0) := by
  constructor
  · intro h
    simp [mock_ssh_main, h]
  · intro h
    have hlen : ¬ argv.length < 3 := Nat.not_lt.mpr h
    simp [mock_ssh_main, hlen]

/-- Witness for C8: one argument gives usage and status 1; two arguments
give status 0. -/
theorem mock_ssh_arg_check_witness :
    mock_ssh_main ["mock_ssh.py"] = ([mock_ssh_usage], 1)
    ∧ (mock_ssh_main ["mock_ssh.py", "server1", "ls -la"]).2 = 0 :=
  ⟨(mock_ssh_arg_check ["mock_ssh.py"]).1 (by decide),
   (mock_ssh_arg_check ["mock_ssh.py", "server1", "ls -la"]).2 (by decide)⟩

/-- C9: `run_ssh_command` is total at its interface: for every input and
every subprocess outcome, the call returns an `ExecResult` record given by
one of the three branches—the normal path, the timeout handler, or the
generic exception handler—so no exception propagates to the caller. -/
theorem run_ssh_total_cases (env : List String → SubprocessBehavior)
    (host user command : String) (key : Option String) :
    (∃ rc out err,
        subprocess_run env (build_ssh_cmd host user command key)
          = Except.ok (rc, out, err)
        ∧ run_ssh_command env host user command key
            = { success := rc == 0, stdout := pyStrip out, stderr := pyStrip err,
                returncode := rc })
    ∨ (subprocess_run env (build_ssh_cmd host user command key)
          = Except.error PyExc.timeoutExpired
        ∧ run_ssh_command env host user command key
            = { success := false, stdout := "", stderr := "Connection timed out.",
                returncode := -1 })
    ∨ (∃ msg,
        subprocess_run env (build_ssh_cmd host user command key)
          = Except.error (PyExc.other msg)
        ∧ run_ssh_command env host user command key
            = { success := false, stdout := "", stderr := msg, returncode := -1 }) := by
  cases h : subprocess_run env (build_ssh_cmd host user command key) with
  | ok v =>
    obtain ⟨rc, out, err⟩ := v
    refine Or.inl ⟨rc, out, err, rfl, ?_⟩
    simp [run_ssh_command, h]
  | error e =>
    cases e with
    | timeoutExpired =>
      refine Or.inr (Or.inl ⟨rfl, ?_⟩)
      simp [run_ssh_command, h]
    | other msg =>
      refine Or.inr (Or.inr ⟨msg, rfl, ?_⟩)
      simp [run_ssh_command, h]

/-- C10: every result of `run_ssh_command`, on every branch including the
timeout and exception handlers, satisfies
`success = (returncode == 0)` (the handlers set `returncode` to `-1`,
which is non-zero). -/
theorem run_ssh_success_iff_zero (env : List String → SubprocessBehavior)
    (host user command : String) (key : Option String) :
    (run_ssh_command env host user command key).success
      = ((run_ssh_command env host user command key).returncode == 0) := by
  cases h : subprocess_run env (build_ssh_cmd host user command key) with
  | ok v =>
    obtain ⟨rc, out, err⟩ := v
    simp [run_ssh_command, h]
  | error e =>
    cases e <;> simp [run_ssh_command, h]

end TuringClaw
